import Mathlib

/-!
Verification development for the satellite tracker (src/js/tracker.js).

The tracker's own logic is embedded shallowly below.  The external
satellite.js library (twoline2satrec, propagate, gstime, eciToGeodetic,
degreesLat/degreesLong) and Math.sqrt are not part of this repository, so
they appear as abstract function parameters; everything the repository
itself computes (TLE line resolution, longitude normalization, the path
sampling loop, the per-tick telemetry assembly, timer lifecycle and the
Leaflet-visible display state) is translated from the source.
Floating-point numbers are modelled as rationals.
-/

namespace Tracker

/-- Inertial 3-vector (km or km/s components), as produced by satellite.propagate. -/
structure Vec3 where
  x : ℚ
  y : ℚ
  z : ℚ
deriving DecidableEq

/-- Result of a successful satellite.propagate call: inertial position and velocity. -/
structure PV where
  position : Vec3
  velocity : Vec3
deriving DecidableEq

/-- Geodetic output of the library conversion chain
gstime / eciToGeodetic / degreesLat / degreesLong at one epoch:
latitude and longitude in degrees, height in km. -/
structure Geo where
  latitude : ℚ
  longitude : ℚ
  height : ℚ
deriving DecidableEq

/-- A resolved TLE object, as built by CelestrakTLEByNORAD (tracker.js lines 5-26). -/
structure TleObj where
  name : String
  line1 : String
  line2 : String
deriving DecidableEq

/-- The meta object passed to startUpdating (tracker.js line 163). -/
structure SessionMeta where
  name : String
  id : String
deriving DecidableEq

/-- The telemetry object assembled on each tick (tracker.js lines 98-103);
ts is the epoch in milliseconds. -/
structure Telemetry where
  name : String
  id : String
  lat : ℚ
  lng : ℚ
  alt : ℚ
  vel : ℚ
  ts : ℤ
deriving DecidableEq

/-- The hard-coded fallback TLE (tracker.js lines 28-33). -/
def sampleISS : TleObj :=
  { name := "ISS (ZARYA) - sample fallback",
    line1 := "1 25544U 98067A   25336.20547222  .00021320  00000-0  43887-3 0  9991",
    line2 := "2 25544  51.6413  11.9812 0007892 304.9859  54.9765 15.50089713338645" }

/-- JS String.prototype.trim modelled on the character list: drop whitespace
from both ends. -/
def trimChars (cs : List Char) : List Char :=
  ((cs.dropWhile Char.isWhitespace).reverse.dropWhile Char.isWhitespace).reverse

/-- JS String.prototype.split('\n') modelled on the character list: cut at
every newline, keeping empty segments. -/
def splitNewline : List Char → List (List Char)
  | [] => [[]]
  | c :: rest =>
      match splitNewline rest with
      | [] => [[c]]
      | l :: ls => if c = '\n' then [] :: l :: ls else (c :: l) :: ls

/-- Line normalization of the fetched TLE text (tracker.js line 12):
txt.trim().split('\n').map(s => s.trim()).filter(Boolean). -/
def tleLines (txt : String) : List String :=
  (((splitNewline (trimChars txt.data)).map trimChars).filter
    (fun cs => !cs.isEmpty)).map (fun cs => String.mk cs)

/-- The pure part of CelestrakTLEByNORAD's line handling (tracker.js lines 12-21):
two lines get a synthesized name, three or more use the first three lines,
fewer than two lines throw (caught, yielding null). -/
def resolveTleText (norad : String) (txt : String) : Option TleObj :=
  let lines := tleLines txt
  if 2 ≤ lines.length then
    if lines.length = 2 then
      some { name := "NORAD " ++ norad, line1 := lines.getD 0 "", line2 := lines.getD 1 "" }
    else
      some { name := lines.getD 0 "", line1 := lines.getD 1 "", line2 := lines.getD 2 "" }
  else none

/-- CelestrakTLEByNORAD (tracker.js lines 5-26) with the network fetch abstracted:
fetched = none models a failed fetch (!res.ok or a thrown fetch error);
any failure path returns null. -/
def CelestrakTLEByNORAD (norad : String) (fetched : Option String) : Option TleObj :=
  match fetched with
  | none => none
  | some txt => resolveTleText norad txt

/-- Longitude normalization in the update tick (tracker.js lines 93-94):
if(lon > 180) lon -= 360. -/
def normalizeLon (lon : ℚ) : ℚ :=
  if lon > 180 then lon - 360 else lon

/-- Default value of the steps parameter of plotOrbit (tracker.js line 64). -/
def plotOrbitStepsDefault : ℕ := 240

/-- Default value of the secondsStep parameter of plotOrbit (tracker.js line 64). -/
def plotOrbitSecondsStepDefault : ℤ := 60

/-- Sample count the track-button handler passes to plotOrbit (tracker.js line 162). -/
def trackPlotSteps : ℕ := 360

/-- Step size the track-button handler passes to plotOrbit (tracker.js line 162). -/
def trackPlotSecondsStep : ℤ := 60

/-- Epoch (ms) of loop index i in plotOrbit (tracker.js line 70):
now.getTime() + i * secondsStep * 1000. -/
def epochAt (now : ℤ) (secondsStep : ℤ) (i : ℤ) : ℤ :=
  now + i * secondsStep * 1000

/-- The loop indices of plotOrbit (tracker.js line 69):
i from -Math.floor(steps/2) to Math.ceil(steps/2) - 1, which is exactly
steps consecutive integers starting at -(steps / 2). -/
def sampleIndices (steps : ℕ) : List ℤ :=
  (List.range steps).map (fun j : ℕ => (j : ℤ) - ((steps / 2 : ℕ) : ℤ))

/-- The epochs plotOrbit samples, in loop order. -/
def sampleEpochs (now : ℤ) (steps : ℕ) (secondsStep : ℤ) : List ℤ :=
  (sampleIndices steps).map (epochAt now secondsStep)

/-- One iteration body of plotOrbit (tracker.js lines 71-78): propagate at the
epoch; on success convert to geodetic degrees and produce [lat, lon]; on
failure (no position) produce nothing. -/
def pathPointAt (propagate : ℤ → Option PV) (geo : Vec3 → ℤ → Geo) (when : ℤ) :
    Option (ℚ × ℚ) :=
  match propagate when with
  | none => none
  | some pv => some ((geo pv.position when).latitude, (geo pv.position when).longitude)

/-- The path array plotOrbit pushes into the polyline (tracker.js lines 67-80). -/
def plotOrbitPath (propagate : ℤ → Option PV) (geo : Vec3 → ℤ → Geo)
    (now : ℤ) (steps : ℕ) (secondsStep : ℤ) : List (ℚ × ℚ) :=
  (sampleEpochs now steps secondsStep).filterMap (pathPointAt propagate geo)

/-- The same path with each retained point tagged by the epoch of the loop
iteration that produced it (the epoch is implicit in the source loop). -/
def plotOrbitSamples (propagate : ℤ → Option PV) (geo : Vec3 → ℤ → Geo)
    (now : ℤ) (steps : ℕ) (secondsStep : ℤ) : List (ℤ × ℚ × ℚ) :=
  (sampleEpochs now steps secondsStep).filterMap
    (fun when => (pathPointAt propagate geo when).map (fun q => (when, q.1, q.2)))

/-- Observable state of the page: the module globals of tracker.js (line 35)
plus the Leaflet/DOM artifacts the handlers mutate.  nextId/live model the
browser timer table: setInterval hands out fresh ids and clearInterval
removes an id from the live set; consoleLog and alerts record the console
and alert output of the handlers. -/
structure AppState where
  nextId : ℕ
  live : List ℕ
  updateHandle : Option ℕ
  orbitPaths : List (List (ℚ × ℚ))
  satMarker : Option (ℚ × ℚ)
  telemetryVisible : Bool
  telemetry : Option Telemetry
  consoleLog : List String
  alerts : List String
deriving DecidableEq

/-- Page state before any interaction: no timer, empty map layers, hidden panel. -/
def initialState : AppState :=
  { nextId := 0, live := [], updateHandle := none, orbitPaths := [], satMarker := none,
    telemetryVisible := false, telemetry := none, consoleLog := [], alerts := [] }

/-- clearOrbit (tracker.js lines 59-62): clears the orbit layer and removes
the satellite marker. -/
def clearOrbit (s : AppState) : AppState :=
  { s with orbitPaths := [], satMarker := none }

/-- plotOrbit's effect on the page (tracker.js lines 64-81): clears the orbit
layer and adds one polyline holding the sampled path. -/
def plotOrbitOp (propagate : ℤ → Option PV) (geo : Vec3 → ℤ → Geo)
    (now : ℤ) (steps : ℕ) (secondsStep : ℤ) (s : AppState) : AppState :=
  { s with orbitPaths := [plotOrbitPath propagate geo now steps secondsStep] }

/-- startUpdating's timer management (tracker.js lines 83-85):
if(updateHandle) clearInterval(updateHandle); updateHandle = setInterval(...). -/
def startUpdating (s : AppState) : AppState :=
  let cleared := match s.updateHandle with
    | some h => s.live.erase h
    | none => s.live
  { s with
      nextId := s.nextId + 1
      live := cleared ++ [s.nextId]
      updateHandle := some s.nextId }

/-- The body of the setInterval callback (tracker.js lines 85-114): propagate
at now; if there is no position, return leaving every global and the DOM
untouched; otherwise convert to geodetic, normalize longitude, compute
speed with Math.sqrt (abstracted as msqrt), show the telemetry panel and
place or move the marker. -/
def tickBody (msqrt : ℚ → ℚ) (propagate : ℤ → Option PV) (geo : Vec3 → ℤ → Geo)
    (meta : SessionMeta) (now : ℤ) (s : AppState) : AppState :=
  match propagate now with
  | none => s
  | some pv =>
      let g := geo pv.position now
      let lat := g.latitude
      let lon := normalizeLon g.longitude
      let vel := msqrt (pv.velocity.x * pv.velocity.x + pv.velocity.y * pv.velocity.y
        + pv.velocity.z * pv.velocity.z)
      { s with
          telemetryVisible := true
          telemetry := some { name := meta.name, id := meta.id, lat := lat, lng := lon,
                              alt := g.height, vel := vel, ts := now }
          satMarker := some (lat, lon) }

/-- A scheduler tick of timer h: the browser runs the interval callback only
when the id is still live (clearInterval prevents any later callback). -/
def fireTick (msqrt : ℚ → ℚ) (propagate : ℤ → Option PV) (geo : Vec3 → ℤ → Geo)
    (meta : SessionMeta) (h : ℕ) (now : ℤ) (s : AppState) : AppState :=
  if h ∈ s.live then tickBody msqrt propagate geo meta now s else s

/-- The track-button click handler after TLE resolution (tracker.js lines
153-167): fall back to the sample TLE when resolution produced nothing,
then try twoline2satrec (abstracted as parse); on a thrown error, alert and
log it, leaving everything else untouched; on success run clearOrbit,
plotOrbit(satrec, 360, 60) and startUpdating in that order. -/
def trackClick {S : Type} (parse : TleObj → Except String S)
    (propagate : S → ℤ → Option PV) (geo : Vec3 → ℤ → Geo)
    (resolved : Option TleObj) (now : ℤ) (s : AppState) : AppState :=
  let tleObj := resolved.getD sampleISS
  match parse tleObj with
  | Except.error e =>
      { s with
        alerts := s.alerts ++ ["Failed to parse TLE. Paste a valid 2-line element or try another ID."],
        consoleLog := s.consoleLog ++ [e] }
  | Except.ok satrec =>
      let s1 := clearOrbit s
      let s2 := plotOrbitOp (propagate satrec) geo now trackPlotSteps trackPlotSecondsStep s1
      startUpdating s2

/-- The stop-button click handler (tracker.js lines 170-175):
if(updateHandle) clearInterval(updateHandle); updateHandle = null;
clearOrbit(); hide the telemetry panel. -/
def stopClick (s : AppState) : AppState :=
  let cleared := match s.updateHandle with
    | some h => s.live.erase h
    | none => s.live
  { s with
      live := cleared
      updateHandle := none
      orbitPaths := []
      satMarker := none
      telemetryVisible := false }

/-- Scheduler invariant maintained by the handlers: live timer ids are exactly
the content of updateHandle (so at most one timer is live) and every live id
was handed out before nextId. -/
def SchedInv (s : AppState) : Prop :=
  (∀ h ∈ s.live, h < s.nextId) ∧ s.live = s.updateHandle.toList

/-- Timer id k can never fire again and can never be re-issued: it is not
live and is strictly below the id counter. -/
def TimerDead (k : ℕ) (s : AppState) : Prop :=
  k ∉ s.live ∧ k < s.nextId

/-- All page states reachable from a by the user-facing operations: track
clicks, stop clicks, and scheduler ticks of arbitrary timers at arbitrary
instants. -/
inductive Steps {S : Type} (msqrt : ℚ → ℚ) (parse : TleObj → Except String S)
    (propagate : S → ℤ → Option PV) (geo : Vec3 → ℤ → Geo) :
    AppState → AppState → Prop where
  | refl (s : AppState) : Steps msqrt parse propagate geo s s
  | track (a b : AppState) (r : Option TleObj) (t : ℤ) :
      Steps msqrt parse propagate geo a b →
      Steps msqrt parse propagate geo a (trackClick parse propagate geo r t b)
  | stop (a b : AppState) :
      Steps msqrt parse propagate geo a b →
      Steps msqrt parse propagate geo a (stopClick b)
  | fire (a b : AppState) (sr : S) (m : SessionMeta) (h : ℕ) (t : ℤ) :
      Steps msqrt parse propagate geo a b →
      Steps msqrt parse propagate geo a (fireTick msqrt (propagate sr) geo m h t b)

end Tracker

namespace Tracker

/-- filterMap keeps the full length when the function succeeds on every element. -/
theorem length_filterMap_of_forall_isSome {α β : Type} (f : α → Option β) (l : List α)
    (h : ∀ a ∈ l, (f a).isSome) : (l.filterMap f).length = l.length := by
  induction l with
  | nil => rfl
  | cons a t ih =>
      obtain ⟨b, hb⟩ := Option.isSome_iff_exists.mp (h a (List.mem_cons_self a t))
      simp [List.filterMap_cons, hb, ih (fun x hx => h x (List.mem_cons_of_mem a hx))]

/-- filterMap preserves pairwise relations along any transfer of the relation
through the partial function. -/
theorem pairwise_filterMap_of_pairwise {α β : Type} (R : α → α → Prop) (Q : β → β → Prop)
    (f : α → Option β) (hf : ∀ a b x y, R a b → f a = some x → f b = some y → Q x y)
    (l : List α) (hl : l.Pairwise R) : (l.filterMap f).Pairwise Q := by
  induction hl with
  | nil => simp
  | cons ha _ ih =>
      rename_i a t hrest
      cases hfa : f a with
      | none => simpa [List.filterMap_cons, hfa] using ih
      | some x =>
          simp only [List.filterMap_cons, hfa]
          refine List.Pairwise.cons ?_ ih
          intro y hy
          obtain ⟨b, hb, hfb⟩ := List.mem_filterMap.mp hy
          exact hf a b x y (ha b hb) hfa hfb

/-- The sampler visits exactly steps epochs. -/
theorem sampleEpochs_length (now : ℤ) (steps : ℕ) (secondsStep : ℤ) :
    (sampleEpochs now steps secondsStep).length = steps := by
  unfold sampleEpochs sampleIndices
  rw [List.length_map, List.length_map, List.length_range]

/-- Closed form of the j-th sampled epoch. -/
theorem sampleEpochs_getElem (now : ℤ) (steps : ℕ) (secondsStep : ℤ) (j : ℕ)
    (hj : j < steps) :
    (sampleEpochs now steps secondsStep)[j]? =
      some (epochAt now secondsStep ((j : ℤ) - ((steps / 2 : ℕ) : ℤ))) := by
  unfold sampleEpochs sampleIndices
  rw [List.getElem?_map, List.getElem?_map, List.getElem?_range hj]
  rfl

/-- The sampled epochs are strictly increasing when the step size is positive. -/
theorem sampleEpochs_pairwise (now : ℤ) (steps : ℕ) (secondsStep : ℤ)
    (hstep : 0 < secondsStep) :
    (sampleEpochs now steps secondsStep).Pairwise (· < ·) := by
  have hidx : (sampleIndices steps).Pairwise (· < ·) := by
    unfold sampleIndices
    refine List.Pairwise.map (fun j : ℕ => (j : ℤ) - ((steps / 2 : ℕ) : ℤ)) ?_
      (List.pairwise_lt_range steps)
    intro a b hab
    dsimp only
    omega
  unfold sampleEpochs
  refine List.Pairwise.map (epochAt now secondsStep) ?_ hidx
  intro a b hab
  have h1000 : (0 : ℤ) < secondsStep * 1000 := by positivity
  have hmul := mul_lt_mul_of_pos_right hab h1000
  unfold epochAt
  linarith [hmul]

/-- A retained path sample carries the epoch that produced it. -/
theorem plotOrbitSamples_epoch (propagate : ℤ → Option PV) (geo : Vec3 → ℤ → Geo)
    (when : ℤ) (p : ℤ × ℚ × ℚ)
    (hp : (pathPointAt propagate geo when).map (fun q => (when, q.1, q.2)) = some p) :
    p.1 = when := by
  cases hpv : propagate when with
  | none => simp [pathPointAt, hpv] at hp
  | some pv =>
      simp [pathPointAt, hpv] at hp
      simp [← hp]

/-- tickBody never touches the timer table or the handle. -/
theorem tickBody_timers (msqrt : ℚ → ℚ) (propagate : ℤ → Option PV) (geo : Vec3 → ℤ → Geo)
    (meta : SessionMeta) (now : ℤ) (s : AppState) :
    (tickBody msqrt propagate geo meta now s).live = s.live ∧
    (tickBody msqrt propagate geo meta now s).nextId = s.nextId ∧
    (tickBody msqrt propagate geo meta now s).updateHandle = s.updateHandle := by
  unfold tickBody
  cases propagate now <;> exact ⟨rfl, rfl, rfl⟩

/-- A dead timer id stays dead across startUpdating. -/
theorem timerDead_startUpdating (k : ℕ) (s : AppState) (hd : TimerDead k s) :
    TimerDead k (startUpdating s) := by
  obtain ⟨h1, h2⟩ := hd
  constructor
  · intro hmem
    unfold startUpdating at hmem
    simp only [List.mem_append, List.mem_singleton] at hmem
    rcases hmem with hmem | hmem
    · cases hu : s.updateHandle with
      | none => exact h1 (by simpa [hu] using hmem)
      | some h0 => exact h1 (List.mem_of_mem_erase (by simpa [hu] using hmem))
    · omega
  · show k < s.nextId + 1
    omega

/-- A dead timer id stays dead across a stop click. -/
theorem timerDead_stopClick (k : ℕ) (s : AppState) (hd : TimerDead k s) :
    TimerDead k (stopClick s) := by
  obtain ⟨h1, h2⟩ := hd
  refine ⟨?_, h2⟩
  intro hmem
  unfold stopClick at hmem
  cases hu : s.updateHandle with
  | none => exact h1 (by simpa [hu] using hmem)
  | some h0 => exact h1 (List.mem_of_mem_erase (by simpa [hu] using hmem))

/-- Reduction of trackClick when satrec construction throws. -/
theorem trackClick_error {S : Type} (parse : TleObj → Except String S)
    (propagate : S → ℤ → Option PV) (geo : Vec3 → ℤ → Geo) (r : Option TleObj)
    (t : ℤ) (s : AppState) (e : String) (hp : parse (r.getD sampleISS) = Except.error e) :
    trackClick parse propagate geo r t s =
      { s with
          alerts := s.alerts ++
            ["Failed to parse TLE. Paste a valid 2-line element or try another ID."],
          consoleLog := s.consoleLog ++ [e] } := by
  unfold trackClick
  simp only [hp]

/-- Reduction of trackClick when satrec construction succeeds. -/
theorem trackClick_ok {S : Type} (parse : TleObj → Except String S)
    (propagate : S → ℤ → Option PV) (geo : Vec3 → ℤ → Geo) (r : Option TleObj)
    (t : ℤ) (s : AppState) (sr : S) (hp : parse (r.getD sampleISS) = Except.ok sr) :
    trackClick parse propagate geo r t s =
      startUpdating (plotOrbitOp (propagate sr) geo t trackPlotSteps trackPlotSecondsStep
        (clearOrbit s)) := by
  unfold trackClick
  simp only [hp]

/-- A dead timer id stays dead across a track click. -/
theorem timerDead_trackClick {S : Type} (parse : TleObj → Except String S)
    (propagate : S → ℤ → Option PV) (geo : Vec3 → ℤ → Geo) (r : Option TleObj)
    (t : ℤ) (k : ℕ) (s : AppState) (hd : TimerDead k s) :
    TimerDead k (trackClick parse propagate geo r t s) := by
  cases hp : parse (r.getD sampleISS) with
  | error e =>
      rw [trackClick_error parse propagate geo r t s e hp]
      exact ⟨hd.1, hd.2⟩
  | ok sr =>
      rw [trackClick_ok parse propagate geo r t s sr hp]
      have hd2 : TimerDead k (plotOrbitOp (propagate sr) geo t trackPlotSteps
          trackPlotSecondsStep (clearOrbit s)) := ⟨hd.1, hd.2⟩
      exact timerDead_startUpdating k _ hd2

/-- A dead timer id stays dead across a scheduler tick. -/
theorem timerDead_fireTick (msqrt : ℚ → ℚ) (propagate : ℤ → Option PV)
    (geo : Vec3 → ℤ → Geo) (meta : SessionMeta) (h : ℕ) (t : ℤ) (k : ℕ) (s : AppState)
    (hd : TimerDead k s) : TimerDead k (fireTick msqrt propagate geo meta h t s) := by
  unfold fireTick
  split
  · obtain ⟨hl, hn, hh⟩ := tickBody_timers msqrt propagate geo meta t s
    exact ⟨by rw [hl]; exact hd.1, by rw [hn]; exact hd.2⟩
  · exact hd

/-- A dead timer id stays dead along every reachable future state. -/
theorem timerDead_steps {S : Type} (msqrt : ℚ → ℚ) (parse : TleObj → Except String S)
    (propagate : S → ℤ → Option PV) (geo : Vec3 → ℤ → Geo) (a b : AppState)
    (hs : Steps msqrt parse propagate geo a b) (k : ℕ) (hd : TimerDead k a) :
    TimerDead k b := by
  induction hs with
  | refl => exact hd
  | track y r t _ ih => exact timerDead_trackClick parse propagate geo r t k y ih
  | stop y _ ih => exact timerDead_stopClick k y ih
  | fire y sr m h t _ ih => exact timerDead_fireTick msqrt (propagate sr) geo m h t k y ih

/-- startUpdating establishes the scheduler invariant and leaves exactly the
fresh timer live. -/
theorem schedInv_startUpdating (s : AppState) (hInv : SchedInv s) :
    SchedInv (startUpdating s) ∧ (startUpdating s).live = [s.nextId] := by
  obtain ⟨hbound, hlive⟩ := hInv
  have hcleared : (match s.updateHandle with
      | some h => s.live.erase h
      | none => s.live) = [] := by
    cases hu : s.updateHandle with
    | none => simpa [hu] using hlive
    | some h0 =>
        rw [hu] at hlive
        simp [hlive]
  constructor
  · constructor
    · intro h hmem
      unfold startUpdating at hmem
      rw [hcleared] at hmem
      simp only [List.nil_append, List.mem_singleton] at hmem
      show h < s.nextId + 1
      omega
    · show (startUpdating s).live = (startUpdating s).updateHandle.toList
      unfold startUpdating
      rw [hcleared]
      rfl
  · unfold startUpdating
    rw [hcleared]
    rfl

/-- stopClick establishes the scheduler invariant with no live timer. -/
theorem schedInv_stopClick (s : AppState) (hInv : SchedInv s) :
    SchedInv (stopClick s) ∧ (stopClick s).live = [] := by
  obtain ⟨hbound, hlive⟩ := hInv
  have hcleared : (match s.updateHandle with
      | some h => s.live.erase h
      | none => s.live) = [] := by
    cases hu : s.updateHandle with
    | none => simpa [hu] using hlive
    | some h0 =>
        rw [hu] at hlive
        simp [hlive]
  have hres : (stopClick s).live = [] := by
    unfold stopClick
    rw [hcleared]
  exact ⟨⟨by rw [hres]; intro h hmem; simp at hmem, by rw [hres]; rfl⟩, hres⟩

/-- The scheduler invariant is preserved by a track click. -/
theorem schedInv_trackClick {S : Type} (parse : TleObj → Except String S)
    (propagate : S → ℤ → Option PV) (geo : Vec3 → ℤ → Geo) (r : Option TleObj)
    (t : ℤ) (s : AppState) (hInv : SchedInv s) :
    SchedInv (trackClick parse propagate geo r t s) := by
  cases hp : parse (r.getD sampleISS) with
  | error e =>
      rw [trackClick_error parse propagate geo r t s e hp]
      exact ⟨hInv.1, hInv.2⟩
  | ok sr =>
      rw [trackClick_ok parse propagate geo r t s sr hp]
      have hInv2 : SchedInv (plotOrbitOp (propagate sr) geo t trackPlotSteps
          trackPlotSecondsStep (clearOrbit s)) := ⟨hInv.1, hInv.2⟩
      exact (schedInv_startUpdating _ hInv2).1

/-- The scheduler invariant is preserved by a scheduler tick. -/
theorem schedInv_fireTick (msqrt : ℚ → ℚ) (propagate : ℤ → Option PV)
    (geo : Vec3 → ℤ → Geo) (meta : SessionMeta) (h : ℕ) (t : ℤ) (s : AppState)
    (hInv : SchedInv s) : SchedInv (fireTick msqrt propagate geo meta h t s) := by
  unfold fireTick
  split
  · obtain ⟨hl, hn, hh⟩ := tickBody_timers msqrt propagate geo meta t s
    exact ⟨by rw [hl, hn]; exact hInv.1, by rw [hl, hh]; exact hInv.2⟩
  · exact hInv

/-- The scheduler invariant is preserved along every reachable state. -/
theorem schedInv_steps {S : Type} (msqrt : ℚ → ℚ) (parse : TleObj → Except String S)
    (propagate : S → ℤ → Option PV) (geo : Vec3 → ℤ → Geo) (a b : AppState)
    (hs : Steps msqrt parse propagate geo a b) (hInv : SchedInv a) : SchedInv b := by
  induction hs with
  | refl => exact hInv
  | track y r t _ ih => exact schedInv_trackClick parse propagate geo r t y ih
  | stop y _ ih => exact (schedInv_stopClick y ih).1
  | fire y sr m h t _ ih => exact schedInv_fireTick msqrt (propagate sr) geo m h t y ih

/-- Under the invariant at most one timer is live. -/
theorem schedInv_live_length (s : AppState) (hInv : SchedInv s) : s.live.length ≤ 1 := by
  rw [hInv.2]
  cases s.updateHandle <;> simp [Option.toList]

/-- A tick of a dead timer changes nothing: the interval callback no longer runs. -/
theorem fireTick_dead (msqrt : ℚ → ℚ) (propagate : ℤ → Option PV) (geo : Vec3 → ℤ → Geo)
    (meta : SessionMeta) (k : ℕ) (t : ℤ) (s : AppState) (hk : k ∉ s.live) :
    fireTick msqrt propagate geo meta k t s = s := by
  unfold fireTick
  split
  · rename_i hmem
    exact absurd hmem hk
  · rfl

end Tracker

namespace Tracker

/-- Full contract of the path sampling loop: the drawn path is the epoch-tagged
sample list with epochs dropped; at most steps points, exactly steps when
propagation succeeds at every sampled epoch; every retained point comes from a
successful propagation at its own epoch (never stale or zero data); every
successful epoch is retained; and the points are ordered by strictly
increasing epoch. -/
def PathSamplerSpec (propagate : ℤ → Option PV) (geo : Vec3 → ℤ → Geo)
    (now : ℤ) (steps : ℕ) (secondsStep : ℤ) : Prop :=
  plotOrbitPath propagate geo now steps secondsStep =
      (plotOrbitSamples propagate geo now steps secondsStep).map (fun p => p.2) ∧
  (plotOrbitSamples propagate geo now steps secondsStep).length ≤ steps ∧
  ((∀ t ∈ sampleEpochs now steps secondsStep, (propagate t).isSome) →
      (plotOrbitSamples propagate geo now steps secondsStep).length = steps) ∧
  (∀ p ∈ plotOrbitSamples propagate geo now steps secondsStep,
      ∃ pv, propagate p.1 = some pv ∧
        p.2.1 = (geo pv.position p.1).latitude ∧ p.2.2 = (geo pv.position p.1).longitude) ∧
  (∀ t ∈ sampleEpochs now steps secondsStep, ∀ pv, propagate t = some pv →
      (t, (geo pv.position t).latitude, (geo pv.position t).longitude) ∈
        plotOrbitSamples propagate geo now steps secondsStep) ∧
  (plotOrbitSamples propagate geo now steps secondsStep).Pairwise (fun p q => p.1 < q.1)

/-- C3: for every propagation model, sample count and positive step size, the
path sampling loop returns at most steps points, exactly steps when every
sampled epoch propagates, omits exactly the failing epochs (never substituting
stale or zero data), never aborts the whole batch, and yields points ordered
by strictly increasing epoch. -/
theorem path_sampler_contract (propagate : ℤ → Option PV) (geo : Vec3 → ℤ → Geo)
    (now : ℤ) (steps : ℕ) (secondsStep : ℤ) (hstep : 0 < secondsStep) :
    PathSamplerSpec propagate geo now steps secondsStep := by
  refine ⟨?_, ?_, ?_, ?_, ?_, ?_⟩
  · unfold plotOrbitPath plotOrbitSamples
    rw [List.map_filterMap]
    congr 1
    funext w
    cases hpv : propagate w with
    | none => simp [pathPointAt, hpv]
    | some pv => simp [pathPointAt, hpv]
  · calc (plotOrbitSamples propagate geo now steps secondsStep).length
        ≤ (sampleEpochs now steps secondsStep).length :=
          List.length_filterMap_le _ _
      _ = steps := sampleEpochs_length now steps secondsStep
  · intro hall
    unfold plotOrbitSamples
    rw [length_filterMap_of_forall_isSome]
    · exact sampleEpochs_length now steps secondsStep
    · intro t ht
      obtain ⟨pv, hpv⟩ := Option.isSome_iff_exists.mp (hall t ht)
      simp [pathPointAt, hpv]
  · intro p hp
    obtain ⟨t, ht, hft⟩ := List.mem_filterMap.mp hp
    cases hpv : propagate t with
    | none => simp [pathPointAt, hpv] at hft
    | some pv =>
        simp [pathPointAt, hpv] at hft
        refine ⟨pv, ?_, ?_, ?_⟩
        · rw [← hft]
          exact hpv
        · rw [← hft]
        · rw [← hft]
  · intro t ht pv hpv
    refine List.mem_filterMap.mpr ⟨t, ht, ?_⟩
    simp [pathPointAt, hpv]
  · refine pairwise_filterMap_of_pairwise (· < ·) _ _ ?_ _
      (sampleEpochs_pairwise now steps secondsStep hstep)
    intro a b x y hab hfa hfb
    have hxa : x.1 = a := plotOrbitSamples_epoch propagate geo a x hfa
    have hyb : y.1 = b := plotOrbitSamples_epoch propagate geo b y hfb
    rw [hxa, hyb]
    exact hab

end Tracker

namespace Tracker

/-- A concrete propagated state vector used in concrete evaluations. -/
def pv0 : PV :=
  { position := { x := 6800, y := 0, z := 0 }, velocity := { x := 3, y := 4, z := 0 } }

/-- A concrete geodetic conversion used in concrete evaluations. -/
def geo0 : Vec3 → ℤ → Geo := fun _ _ => { latitude := 10, longitude := 20, height := 400 }

/-- A concrete stand-in for Math.sqrt used in concrete evaluations. -/
def msqrt0 : ℚ → ℚ := fun q => q

/-- A propagation model that succeeds at every epoch. -/
def propagateAll : ℤ → Option PV := fun _ => some pv0

/-- A propagation model that fails at every epoch (decayed orbit). -/
def propagateNever : ℤ → Option PV := fun _ => none

/-- A satrec parser stand-in that always succeeds. -/
def parseOk : TleObj → Except String Unit := fun _ => Except.ok ()

/-- A satrec parser stand-in that always throws. -/
def parseThrow : TleObj → Except String Unit := fun _ => Except.error "bad TLE"

/-- Concrete session meta used in concrete evaluations. -/
def meta0 : SessionMeta := { name := "ISS (ZARYA)", id := "25544" }

/-- A telemetry record standing for a last-known-good sample. -/
def prevTelemetry : Telemetry :=
  { name := "ISS (ZARYA)", id := "25544", lat := 10, lng := 20, alt := 400, vel := 7, ts := 0 }

/-- A page state with one running session (timer 0 live) showing telemetry. -/
def runningState : AppState :=
  { nextId := 1, live := [0], updateHandle := some 0,
    orbitPaths := [[(10, 20), (11, 21)]], satMarker := some (10, 20),
    telemetryVisible := true, telemetry := some prevTelemetry, consoleLog := [], alerts := [] }

/-- A single-line (malformed) TLE text. -/
def oneLineTle : String :=
  "1 25544U 98067A   25336.20547222  .00021320  00000-0  43887-3 0  9991"

/-- C1: FALSE as stated.  A malformed one-line TLE makes the resolver return
null, yet the click handler then falls back to the sample ISS TLE and a
tracking session IS created: a timer is started and an orbit path is
plotted. -/
theorem malformed_tle_still_starts_session :
    CelestrakTLEByNORAD "25544" (some oneLineTle) = none ∧
    (trackClick parseOk (fun _ _ => some pv0) geo0
        (CelestrakTLEByNORAD "25544" (some oneLineTle)) 0 initialState).updateHandle =
      some 0 ∧
    (trackClick parseOk (fun _ _ => some pv0) geo0
        (CelestrakTLEByNORAD "25544" (some oneLineTle)) 0 initialState).live = [0] ∧
    (trackClick parseOk (fun _ _ => some pv0) geo0
        (CelestrakTLEByNORAD "25544" (some oneLineTle)) 0 initialState).orbitPaths.length
      = 1 := by
  refine ⟨?_, rfl, rfl, rfl⟩
  decide

/-- C1 (amended): when the fetched TLE text has fewer than two non-empty lines
the resolver yields null and no InvalidTleFormat is surfaced; the handler
substitutes the sample ISS TLE and, whenever satrec construction succeeds on
it, starts a session for the sample: the new timer is live and its handle
recorded, and the sample's orbit path is plotted. -/
theorem malformed_tle_falls_back_to_sample {S : Type} (parse : TleObj → Except String S)
    (propagate : S → ℤ → Option PV) (geo : Vec3 → ℤ → Geo) (norad txt : String)
    (now : ℤ) (s : AppState) (sr : S)
    (hmal : (tleLines txt).length < 2) (hparse : parse sampleISS = Except.ok sr) :
    CelestrakTLEByNORAD norad (some txt) = none ∧
    (trackClick parse propagate geo (CelestrakTLEByNORAD norad (some txt)) now s).updateHandle
      = some s.nextId ∧
    s.nextId ∈ (trackClick parse propagate geo (CelestrakTLEByNORAD norad (some txt)) now s).live ∧
    (trackClick parse propagate geo (CelestrakTLEByNORAD norad (some txt)) now s).orbitPaths
      = [plotOrbitPath (propagate sr) geo now trackPlotSteps trackPlotSecondsStep] := by
  have hres : CelestrakTLEByNORAD norad (some txt) = none := by
    show resolveTleText norad txt = none
    unfold resolveTleText
    have h2 : ¬ 2 ≤ (tleLines txt).length := by omega
    simp [h2]
  have hget : (CelestrakTLEByNORAD norad (some txt)).getD sampleISS = sampleISS := by
    rw [hres]
    rfl
  have hok : parse ((CelestrakTLEByNORAD norad (some txt)).getD sampleISS) = Except.ok sr := by
    rw [hget]
    exact hparse
  rw [trackClick_ok parse propagate geo _ now s sr hok]
  refine ⟨hres, rfl, ?_, rfl⟩
  unfold startUpdating
  simp only [List.mem_append, List.mem_singleton]
  right
  rfl

/-- C2: FALSE as stated.  The single conditional subtraction is neither
range-correct nor 360-periodic on all raw longitudes: at raw longitude 550
the result 190 lies outside (-180, 180], and normalize(190 + 360·1) differs
from normalize(190). -/
theorem normalizeLon_not_periodic :
    normalizeLon 550 = 190 ∧ ¬ normalizeLon 550 ≤ 180 ∧
    normalizeLon (-190) < -180 ∧
    normalizeLon (190 + 360 * 1) ≠ normalizeLon 190 := by
  refine ⟨?_, ?_, ?_, ?_⟩ <;> norm_num [normalizeLon]

/-- C2 (amended): the normalization maps the window (-180, 540] into
(-180, 180], and removes exactly one period: normalize(L + 360) =
normalize(L) whenever L itself lies in (-180, 180].  Outside that window the
single subtraction is neither range-correct nor periodic. -/
theorem normalizeLon_single_period (L : ℚ) (h1 : -180 < L) :
    (L ≤ 540 → -180 < normalizeLon L ∧ normalizeLon L ≤ 180) ∧
    (L ≤ 180 → normalizeLon (L + 360) = normalizeLon L) := by
  constructor
  · intro h2
    unfold normalizeLon
    split
    · constructor <;> linarith
    · constructor <;> linarith
  · intro h2
    unfold normalizeLon
    have ha : L + 360 > 180 := by linarith
    have hb : ¬ L > 180 := by linarith
    rw [if_pos ha, if_neg hb]
    ring

/-- Witness for the amended C2 at L = 100. -/
theorem normalizeLon_single_period_witness :
    (-180 : ℚ) < 100 ∧
    (((100 : ℚ) ≤ 540 → -180 < normalizeLon 100 ∧ normalizeLon 100 ≤ 180) ∧
      ((100 : ℚ) ≤ 180 → normalizeLon (100 + 360) = normalizeLon 100)) :=
  ⟨by norm_num, normalizeLon_single_period 100 (by norm_num)⟩

/-- C4: FALSE as stated.  The default sample count of plotOrbit is 240, not
360 (360 is only what the track handler passes explicitly). -/
theorem plotOrbit_default_not_360 :
    plotOrbitStepsDefault = 240 ∧ plotOrbitStepsDefault ≠ 360 := by
  refine ⟨rfl, ?_⟩
  decide

/-- C4 (amended): plotOrbit's defaults are steps = 240 and secondsStep = 60,
while the session-start call passes 360 and 60 explicitly; for any N and
step the loop samples exactly N epochs and the j-th epoch is
now + (j - floor(N/2)) * step * 1000 ms, i.e. the epochs are centered on now,
step seconds apart, spanning -floor(N/2)*step .. (ceil(N/2)-1)*step seconds. -/
theorem plotOrbit_sampling_policy (now : ℤ) (steps : ℕ) (secondsStep : ℤ) (j : ℕ)
    (hj : j < steps) :
    plotOrbitStepsDefault = 240 ∧ plotOrbitSecondsStepDefault = 60 ∧
    trackPlotSteps = 360 ∧ trackPlotSecondsStep = 60 ∧
    (sampleEpochs now steps secondsStep).length = steps ∧
    (sampleEpochs now steps secondsStep)[j]? =
      some (epochAt now secondsStep ((j : ℤ) - ((steps / 2 : ℕ) : ℤ))) :=
  ⟨rfl, rfl, rfl, rfl, sampleEpochs_length now steps secondsStep,
    sampleEpochs_getElem now steps secondsStep j hj⟩

/-- Witness for the amended C4 at N = 240, step = 60, j = 0: the first epoch
is 120 minutes before now. -/
theorem plotOrbit_sampling_policy_witness :
    0 < 240 ∧
    (plotOrbitStepsDefault = 240 ∧ plotOrbitSecondsStepDefault = 60 ∧
      trackPlotSteps = 360 ∧ trackPlotSecondsStep = 60 ∧
      (sampleEpochs 0 240 60).length = 240 ∧
      (sampleEpochs 0 240 60)[0]? = some (epochAt 0 60 ((0 : ℤ) - ((240 / 2 : ℕ) : ℤ)))) :=
  ⟨by decide, plotOrbit_sampling_policy 0 240 60 0 (by decide)⟩

end Tracker

namespace Tracker

/-- Witness for the amended C1: concrete malformed text, parse succeeding on
the sample, applied to a page with a running session. -/
theorem malformed_tle_falls_back_to_sample_witness :
    ((tleLines oneLineTle).length < 2 ∧ parseOk sampleISS = Except.ok ()) ∧
    (CelestrakTLEByNORAD "25544" (some oneLineTle) = none ∧
      (trackClick parseOk (fun _ => propagateAll) geo0
          (CelestrakTLEByNORAD "25544" (some oneLineTle)) 0 runningState).updateHandle =
        some runningState.nextId ∧
      runningState.nextId ∈ (trackClick parseOk (fun _ => propagateAll) geo0
          (CelestrakTLEByNORAD "25544" (some oneLineTle)) 0 runningState).live ∧
      (trackClick parseOk (fun _ => propagateAll) geo0
          (CelestrakTLEByNORAD "25544" (some oneLineTle)) 0 runningState).orbitPaths =
        [plotOrbitPath ((fun _ : Unit => propagateAll) ()) geo0 0 trackPlotSteps
          trackPlotSecondsStep]) :=
  ⟨⟨by decide, rfl⟩,
    malformed_tle_falls_back_to_sample parseOk (fun _ => propagateAll) geo0 "25544"
      oneLineTle 0 runningState () (by decide) rfl⟩

/-- Witness for C3 at a concrete all-successful propagation model with
step 60 and 4 samples. -/
theorem path_sampler_contract_witness :
    (0 : ℤ) < 60 ∧ PathSamplerSpec propagateAll geo0 0 4 60 :=
  ⟨by decide, path_sampler_contract propagateAll geo0 0 4 60 (by decide)⟩

/-- C5: FALSE as stated.  On a tick whose propagation fails the state is left
completely unchanged — the previous telemetry record indeed stays in place,
but nothing at all is logged or reported (console and alert streams are
untouched), contradicting the logged/reported part of the claim. -/
theorem failed_tick_is_silent :
    tickBody msqrt0 propagateNever geo0 meta0 5 runningState = runningState ∧
    (tickBody msqrt0 propagateNever geo0 meta0 5 runningState).telemetry =
      some prevTelemetry ∧
    (tickBody msqrt0 propagateNever geo0 meta0 5 runningState).consoleLog = [] ∧
    (tickBody msqrt0 propagateNever geo0 meta0 5 runningState).alerts = [] :=
  ⟨rfl, rfl, rfl, rfl⟩

/-- C5 (amended): on any scheduler tick at which propagation fails for the
current instant, the tick is a complete no-op: no new TelemetryRecord is
produced, the previous one (if any) is left in place unchanged, nothing is
logged, and the failure is not propagated as a fatal error, so repeated
failures freeze the display on last-known-good data. -/
theorem failed_tick_preserves_state (msqrt : ℚ → ℚ) (propagate : ℤ → Option PV)
    (geo : Vec3 → ℤ → Geo) (meta : SessionMeta) (now : ℤ) (s : AppState)
    (hfail : propagate now = none) :
    tickBody msqrt propagate geo meta now s = s := by
  unfold tickBody
  rw [hfail]

/-- Witness for the amended C5 on a concrete failing tick over a running session. -/
theorem failed_tick_preserves_state_witness :
    propagateNever 5 = none ∧
    tickBody msqrt0 propagateNever geo0 meta0 5 runningState = runningState :=
  ⟨rfl, failed_tick_preserves_state msqrt0 propagateNever geo0 meta0 5 runningState rfl⟩

/-- C6: for every propagated state vector the telemetry record's scalar speed
is Math.sqrt applied to vx²+vy²+vz² of the inertial velocity vector (the
Euclidean norm of the inertial velocity, not a ground speed), alongside the
geodetic fields. -/
theorem telemetry_speed_is_inertial_norm (msqrt : ℚ → ℚ) (propagate : ℤ → Option PV)
    (geo : Vec3 → ℤ → Geo) (meta : SessionMeta) (now : ℤ) (s : AppState) (pv : PV)
    (hp : propagate now = some pv) :
    (tickBody msqrt propagate geo meta now s).telemetry =
      some { name := meta.name, id := meta.id,
             lat := (geo pv.position now).latitude,
             lng := normalizeLon (geo pv.position now).longitude,
             alt := (geo pv.position now).height,
             vel := msqrt (pv.velocity.x * pv.velocity.x + pv.velocity.y * pv.velocity.y
               + pv.velocity.z * pv.velocity.z),
             ts := now } := by
  unfold tickBody
  rw [hp]

/-- Witness for C6 on a concrete state vector: speed is msqrt (3·3+4·4+0·0). -/
theorem telemetry_speed_is_inertial_norm_witness :
    propagateAll 0 = some pv0 ∧
    (tickBody msqrt0 propagateAll geo0 meta0 0 initialState).telemetry =
      some { name := meta0.name, id := meta0.id,
             lat := (geo0 pv0.position 0).latitude,
             lng := normalizeLon (geo0 pv0.position 0).longitude,
             alt := (geo0 pv0.position 0).height,
             vel := msqrt0 (pv0.velocity.x * pv0.velocity.x + pv0.velocity.y * pv0.velocity.y
               + pv0.velocity.z * pv0.velocity.z),
             ts := 0 } :=
  ⟨rfl, telemetry_speed_is_inertial_norm msqrt0 propagateAll geo0 meta0 0 initialState pv0 rfl⟩

/-- What C7 asserts after a start over a running session: only the fresh timer
is live, the old timer is not, and in every reachable later state the old
timer is still dead (its callback can never run again) while at most one
timer is live. -/
def StartSupersedesSpec {S : Type} (msqrt : ℚ → ℚ) (parse : TleObj → Except String S)
    (propagate : S → ℤ → Option PV) (geo : Vec3 → ℤ → Geo) (s : AppState) (k : ℕ) : Prop :=
  (startUpdating s).live = [s.nextId] ∧
  k ∉ (startUpdating s).live ∧
  ∀ t, Steps msqrt parse propagate geo (startUpdating s) t →
    k ∉ t.live ∧ t.live.length ≤ 1 ∧
    ∀ (sr : S) (m : SessionMeta) (tm : ℤ), fireTick msqrt (propagate sr) geo m k tm t = t

/-- C7: starting while another session's timer k is running cancels k before
the new recurring ticks are scheduled: afterwards exactly the fresh timer is
live, k is not, and no tick of k ever fires in any reachable later state
(in particular not after the new session's first tick), with at most one
live timer at any time. -/
theorem start_supersedes_running {S : Type} (msqrt : ℚ → ℚ)
    (parse : TleObj → Except String S) (propagate : S → ℤ → Option PV)
    (geo : Vec3 → ℤ → Geo) (s : AppState) (k : ℕ)
    (hInv : SchedInv s) (hrun : s.updateHandle = some k) :
    StartSupersedesSpec msqrt parse propagate geo s k := by
  have hkmem : k ∈ s.live := by
    rw [hInv.2, hrun]
    simp [Option.toList]
  have hklt : k < s.nextId := hInv.1 k hkmem
  obtain ⟨hInv2, hlive⟩ := schedInv_startUpdating s hInv
  refine ⟨hlive, ?_, ?_⟩
  · rw [hlive]
    simp only [List.mem_singleton]
    omega
  · intro t ht
    have hdead : TimerDead k (startUpdating s) := by
      refine ⟨?_, ?_⟩
      · rw [hlive]
        simp only [List.mem_singleton]
        omega
      · show k < s.nextId + 1
        omega
    have hd := timerDead_steps msqrt parse propagate geo _ t ht k hdead
    have hI := schedInv_steps msqrt parse propagate geo _ t ht hInv2
    exact ⟨hd.1, schedInv_live_length t hI,
      fun sr m tm => fireTick_dead msqrt (propagate sr) geo m k tm t hd.1⟩

/-- Witness for C7 on a concrete running session (timer 0 live, counter 1). -/
theorem start_supersedes_running_witness :
    (SchedInv runningState ∧ runningState.updateHandle = some 0) ∧
    StartSupersedesSpec msqrt0 parseOk (fun _ => propagateAll) geo0 runningState 0 :=
  ⟨⟨⟨by decide, by decide⟩, rfl⟩,
    start_supersedes_running msqrt0 parseOk (fun _ => propagateAll) geo0 runningState 0
      ⟨by decide, by decide⟩ rfl⟩

/-- What C8 asserts after a stop: the timer table is empty, stopping again is
a no-op, and in every reachable later state the stopped session's timer is
dead, so its callback never runs under any subsequent delay. -/
def StopSessionSpec {S : Type} (msqrt : ℚ → ℚ) (parse : TleObj → Except String S)
    (propagate : S → ℤ → Option PV) (geo : Vec3 → ℤ → Geo) (s : AppState) : Prop :=
  (stopClick s).live = [] ∧
  stopClick (stopClick s) = stopClick s ∧
  stopClick initialState = initialState ∧
  ∀ t, Steps msqrt parse propagate geo (stopClick s) t → ∀ k, s.updateHandle = some k →
    k ∉ t.live ∧
    ∀ (sr : S) (m : SessionMeta) (tm : ℤ), fireTick msqrt (propagate sr) geo m k tm t = t

/-- C8: after stop returns no timer is live and the stopped session's timer
never fires again in any reachable later state under any delay (the interval
is cancelled, not flagged), and stop is idempotent: stopping an
already-stopped page changes nothing. -/
theorem stop_cancels_session {S : Type} (msqrt : ℚ → ℚ)
    (parse : TleObj → Except String S) (propagate : S → ℤ → Option PV)
    (geo : Vec3 → ℤ → Geo) (s : AppState) (hInv : SchedInv s) :
    StopSessionSpec msqrt parse propagate geo s := by
  obtain ⟨hIstop, hempty⟩ := schedInv_stopClick s hInv
  refine ⟨hempty, rfl, rfl, ?_⟩
  intro t ht k hk
  have hkmem : k ∈ s.live := by
    rw [hInv.2, hk]
    simp [Option.toList]
  have hklt : k < s.nextId := hInv.1 k hkmem
  have hdead : TimerDead k (stopClick s) := by
    refine ⟨?_, ?_⟩
    · rw [hempty]
      simp
    · show k < s.nextId
      omega
  have hd := timerDead_steps msqrt parse propagate geo _ t ht k hdead
  exact ⟨hd.1, fun sr m tm => fireTick_dead msqrt (propagate sr) geo m k tm t hd.1⟩

/-- Witness for C8 on a concrete running session (timer 0 live, counter 1). -/
theorem stop_cancels_session_witness :
    SchedInv runningState ∧
    StopSessionSpec msqrt0 parseOk (fun _ => propagateAll) geo0 runningState :=
  ⟨⟨by decide, by decide⟩,
    stop_cancels_session msqrt0 parseOk (fun _ => propagateAll) geo0 runningState
      ⟨by decide, by decide⟩⟩

/-- C9: a stop click does more than cancel the timer: it empties the orbit
layer, removes the satellite marker, hides the telemetry panel and clears the
stored handle, so no stale path, marker or telemetry display remains. -/
theorem stop_clears_display (s : AppState) :
    (stopClick s).orbitPaths = [] ∧ (stopClick s).satMarker = none ∧
    (stopClick s).telemetryVisible = false ∧ (stopClick s).updateHandle = none :=
  ⟨rfl, rfl, rfl, rfl⟩

/-- C10: when satrec construction throws during a track click, the running
session is left fully intact — timer table, handle, orbit path, marker,
telemetry record and visibility are all unchanged (the clear/plot/start
sequence runs only after construction succeeds); only the alert and the
console error are emitted. -/
theorem parse_error_preserves_running_session {S : Type} (parse : TleObj → Except String S)
    (propagate : S → ℤ → Option PV) (geo : Vec3 → ℤ → Geo) (r : Option TleObj)
    (t : ℤ) (s : AppState) (e : String)
    (hfail : parse (r.getD sampleISS) = Except.error e) :
    (trackClick parse propagate geo r t s).live = s.live ∧
    (trackClick parse propagate geo r t s).updateHandle = s.updateHandle ∧
    (trackClick parse propagate geo r t s).nextId = s.nextId ∧
    (trackClick parse propagate geo r t s).orbitPaths = s.orbitPaths ∧
    (trackClick parse propagate geo r t s).satMarker = s.satMarker ∧
    (trackClick parse propagate geo r t s).telemetry = s.telemetry ∧
    (trackClick parse propagate geo r t s).telemetryVisible = s.telemetryVisible ∧
    (trackClick parse propagate geo r t s).consoleLog = s.consoleLog ++ [e] := by
  rw [trackClick_error parse propagate geo r t s e hfail]
  exact ⟨rfl, rfl, rfl, rfl, rfl, rfl, rfl, rfl⟩

/-- Witness for C10 on a running session with a throwing parser. -/
theorem parse_error_preserves_running_session_witness :
    parseThrow (Option.getD none sampleISS) = Except.error "bad TLE" ∧
    ((trackClick parseThrow (fun _ => propagateAll) geo0 none 0 runningState).live =
        runningState.live ∧
      (trackClick parseThrow (fun _ => propagateAll) geo0 none 0 runningState).updateHandle =
        runningState.updateHandle ∧
      (trackClick parseThrow (fun _ => propagateAll) geo0 none 0 runningState).nextId =
        runningState.nextId ∧
      (trackClick parseThrow (fun _ => propagateAll) geo0 none 0 runningState).orbitPaths =
        runningState.orbitPaths ∧
      (trackClick parseThrow (fun _ => propagateAll) geo0 none 0 runningState).satMarker =
        runningState.satMarker ∧
      (trackClick parseThrow (fun _ => propagateAll) geo0 none 0 runningState).telemetry =
        runningState.telemetry ∧
      (trackClick parseThrow (fun _ => propagateAll) geo0 none 0 runningState).telemetryVisible =
        runningState.telemetryVisible ∧
      (trackClick parseThrow (fun _ => propagateAll) geo0 none 0 runningState).consoleLog =
        runningState.consoleLog ++ ["bad TLE"]) :=
  ⟨rfl, parse_error_preserves_running_session parseThrow (fun _ => propagateAll) geo0 none 0
    runningState "bad TLE" rfl⟩

end Tracker
